import Mathlib

/-!
Verification of the go-simconnect client library core against its
natural-language specification.

The Go source is shallowly embedded: 32-bit machine integers are `Nat`
with an explicit `% 2 ^ 32` where wrap-around can occur, byte buffers are
`List Nat` (each entry one byte), Go `error` results are `Except GoError`,
and every native (DLL) call is modelled by passing its outcome — the
32-bit HRESULT it returns plus any values it writes through out-pointers —
as an explicit argument, since the vendor DLL is outside the library.
Mutable receivers become explicit state passing: a Go method
`func (c *Client) F(...) error` becomes a Lean function from the old
state (plus the native outcome) to `Except GoError _ × Client`.
-/

namespace GoSimconnect

/-- HRESULT constants from pkg/client/client.go. -/
def S_OK : Nat := 0x00000000

/-- General failure HRESULT (pkg/client/client.go). -/
def E_FAIL : Nat := 0x80004005

/-- Invalid-argument HRESULT (pkg/client/client.go). -/
def E_INVALIDARG : Nat := 0x80070057

/-- Remote-disconnect status (pkg/client/client.go). -/
def STATUS_REMOTE_DISCONNECT : Nat := 0xC000013C

/-- The `IsHRESULTSuccess` from pkg/client (success is exactly S_OK). -/
def IsHRESULTSuccess (hresult : Nat) : Bool :=
  hresult == S_OK

/-- The `SimConnectError` struct: function name, raw HRESULT, human message. -/
structure SimConnectError where
  Function : String
  HRESULT : Nat
  Message : String
deriving Repr, DecidableEq

/-- A Go `error` value as produced by this library: either a plain
`fmt.Errorf` message or a typed `*SimConnectError`. -/
inductive GoError where
  | errorf (msg : String)
  | simconnect (e : SimConnectError)
deriving Repr, DecidableEq

/-- The `GetHRESULTMessage` from the repository (human message per code). -/
def GetHRESULTMessage (hresult : Nat) : String :=
  if hresult == S_OK then "Success"
  else if hresult == E_FAIL then "General failure"
  else if hresult == E_INVALIDARG then "Invalid argument"
  else if hresult == STATUS_REMOTE_DISCONNECT then "Remote connection lost"
  else "Unknown error"

/-- The `NewSimConnectError` constructor. -/
def NewSimConnectError (function : String) (hresult : Nat) (message : String) :
    SimConnectError :=
  { Function := function, HRESULT := hresult, Message := message }

/-- The `syscall.BytePtrFromString` fails exactly when the Go string contains
an interior NUL byte; this predicate captures that failure condition. -/
def hasNullByte (s : String) : Bool :=
  s.toList.any (fun c => c.toNat == 0)

/-- The `Client` struct of pkg/client/client.go: SimConnect handle
(a machine word, `0` meaning NULL), open flag, and client name.
The `dll` field (the lazily loaded library image) carries no state the
claims depend on and is represented by the native-outcome arguments of
each operation instead. -/
structure Client where
  handle : Nat
  isOpen : Bool
  name : String
deriving Repr, DecidableEq

/-- The `NewClient`: fresh client with NULL handle and closed state. -/
def NewClient (name : String) : Client :=
  { handle := 0, isOpen := false, name := name }

/-- The `IsOpen` accessor. -/
def Client.IsOpen (c : Client) : Bool :=
  c.isOpen

/-- Outcome of the native `SimConnect_Open` call: its HRESULT and the
value it stores through the `phSimConnect` out-pointer (the DLL writes
this before the Go code inspects the status). -/
structure OpenCallOutcome where
  hresult : Nat
  handleOut : Nat
deriving Repr, DecidableEq

/-- The `Client.Open` from pkg/client/client.go lines 47-79: reject when
already open; fail when the name cannot be converted to a C string;
otherwise invoke the native open (which writes the handle out-parameter
unconditionally) and set `isOpen` only on S_OK. -/
def Client.Open (c : Client) (native : OpenCallOutcome) :
    Except GoError Unit × Client :=
  if c.isOpen then
    (Except.error (GoError.errorf "client is already open"), c)
  else if hasNullByte c.name then
    (Except.error (GoError.errorf "failed to convert name to bytes"), c)
  else
    let c' := { c with handle := native.handleOut }
    if IsHRESULTSuccess native.hresult then
      (Except.ok (), { c' with isOpen := true })
    else
      (Except.error (GoError.simconnect
        (NewSimConnectError "SimConnect_Open" native.hresult
          (GetHRESULTMessage native.hresult))), c')

/-- The `Client.Close` from pkg/client/client.go lines 83-102: reject when
not open; on native success clear the open flag and zero the handle; on
native failure return the wrapped error with the state untouched. -/
def Client.Close (c : Client) (hresult : Nat) :
    Except GoError Unit × Client :=
  if !c.isOpen then
    (Except.error (GoError.errorf "client is not open"), c)
  else if IsHRESULTSuccess hresult then
    (Except.ok (), { c with isOpen := false, handle := 0 })
  else
    (Except.error (GoError.simconnect
      (NewSimConnectError "SimConnect_Close" hresult
        (GetHRESULTMessage hresult))), c)

/-- The `Client.RequestSystemState` from pkg/client/client.go lines 106-132:
guard on the open flag, convert the state string, invoke the native call
and wrap any non-success HRESULT. The client state is never modified. -/
def Client.RequestSystemState (c : Client) (hresult : Nat) (state : String) :
    Except GoError Unit × Client :=
  if !c.isOpen then
    (Except.error (GoError.errorf "client is not open"), c)
  else if hasNullByte state then
    (Except.error (GoError.errorf "failed to convert state to bytes"), c)
  else if IsHRESULTSuccess hresult then
    (Except.ok (), c)
  else
    (Except.error (GoError.simconnect
      (NewSimConnectError "SimConnect_RequestSystemState" hresult
        (GetHRESULTMessage hresult))), c)

/-- Outcome of the native `SimConnect_GetNextDispatch` call: HRESULT,
the message pointer written through `ppData` (0 = NULL), the byte count
written through `pcbData`, and the native-owned memory at the pointer
(byte at each offset), which the Go code copies byte by byte. -/
structure DispatchCallOutcome where
  hresult : Nat
  pData : Nat
  cbData : Nat
  mem : Nat → Nat

/-- The `Client.GetRawDispatch` from pkg/client/client.go lines 260-302:
not-open guard; `E_FAIL` means empty queue and is surfaced as no message
with no error; other non-success codes become a wrapped error; a NULL or
zero-sized pointer is also no message; otherwise the native buffer is
copied into a fresh caller-owned buffer of exactly `cbData` bytes. -/
def Client.GetRawDispatch (c : Client) (native : DispatchCallOutcome) :
    Except GoError (Option (List Nat)) :=
  if !c.isOpen then
    Except.error (GoError.errorf "client is not open")
  else if native.hresult == E_FAIL then
    Except.ok none
  else if !IsHRESULTSuccess native.hresult then
    Except.error (GoError.simconnect
      (NewSimConnectError "SimConnect_GetNextDispatch" native.hresult
        (GetHRESULTMessage native.hresult)))
  else if native.pData == 0 || native.cbData == 0 then
    Except.ok none
  else
    Except.ok (some ((List.range native.cbData).map native.mem))

/-! ## Message codec (pkg/simconnect/responses.go, shared by pkg/client) -/

/-- Message-kind code for simulation-object data (responses.go). -/
def SIMCONNECT_RECV_ID_SIMOBJECT_DATA : Nat := 0x00000008

/-- Read a 32-bit little-endian unsigned integer at a byte offset of a
buffer, the way the Go code reinterprets struct fields in place. -/
def readU32 (data : List Nat) (off : Nat) : Nat :=
  data.getD off 0 + 256 * data.getD (off + 1) 0 +
    65536 * data.getD (off + 2) 0 + 16777216 * data.getD (off + 3) 0

/-- The `SIMCONNECT_RECV` base header: three 32-bit fields, 12 bytes. -/
def SIMCONNECT_RECV_SIZE : Nat := 12

/-- The `SIMCONNECT_RECV_SIMOBJECT_DATA` header: ten 32-bit fields, 40 bytes. -/
def SIMOBJECT_DATA_HEADER_SIZE : Nat := 40

/-- The `ParseMessageType` (responses.go lines 87-94): reject buffers shorter
than the 12-byte base header, else return the `DwID` field at offset 8. -/
def ParseMessageType (data : List Nat) : Except GoError Nat :=
  if data.length < SIMCONNECT_RECV_SIZE then
    Except.error (GoError.errorf "data too short for SIMCONNECT_RECV")
  else
    Except.ok (readU32 data 8)

/-- The `SIMCONNECT_RECV_SIMOBJECT_DATA` struct (responses.go lines
54-64): base header fields followed by request/object/definition IDs,
flags, two reserved fields and the definition count. -/
structure SIMCONNECT_RECV_SIMOBJECT_DATA where
  DwSize : Nat
  DwVersion : Nat
  DwID : Nat
  DwRequestID : Nat
  DwObjectID : Nat
  DwDefineID : Nat
  DwFlags : Nat
  DwentrynumberOut : Nat
  DwoutofOut : Nat
  DwDefineCount : Nat
deriving Repr, DecidableEq

/-- The `ParseSimObjectData` (responses.go lines 67-84): reject buffers
shorter than the 40-byte struct, else reinterpret the front as the
struct and return the remaining bytes as the payload (empty when the
buffer is exactly the header, matching the Go nil tail). -/
def ParseSimObjectData (data : List Nat) :
    Except GoError (SIMCONNECT_RECV_SIMOBJECT_DATA × List Nat) :=
  if data.length < SIMOBJECT_DATA_HEADER_SIZE then
    Except.error (GoError.errorf "data too short for SIMCONNECT_RECV_SIMOBJECT_DATA")
  else
    Except.ok
      ({ DwSize := readU32 data 0
         DwVersion := readU32 data 4
         DwID := readU32 data 8
         DwRequestID := readU32 data 12
         DwObjectID := readU32 data 16
         DwDefineID := readU32 data 20
         DwFlags := readU32 data 24
         DwentrynumberOut := readU32 data 28
         DwoutofOut := readU32 data 32
         DwDefineCount := readU32 data 36 },
       data.drop SIMOBJECT_DATA_HEADER_SIZE)

/-- The 64-bit word formed from the first eight payload bytes in
little-endian order: the bit pattern of the float64 the Go code reads
with `*(*float64)(unsafe.Pointer(&simData[0]))`. Values are kept as bit
patterns so that no floating-point arithmetic enters the model. -/
def readFloat64Bits (simData : List Nat) : Nat :=
  (simData.take 8).foldr (fun b acc => b + 256 * acc) 0

/-! ## FlightDataManager (pkg/client/flight_data.go) -/

/-- Period constant used by `Start` (constants.go). -/
def SIMCONNECT_PERIOD_SECOND : Nat := 4

/-- Changed-only request flag used by `Start` (constants.go). -/
def SIMCONNECT_DATA_REQUEST_FLAG_CHANGED : Nat := 1

/-- Object selector for the user aircraft (constants.go). -/
def SIMCONNECT_OBJECT_ID_USER : Nat := 0

/-- The `FlightVariable` (flight_data.go lines 10-17). `Value` holds the
64-bit IEEE-754 bit pattern of the Go float64 and `Updated` an abstract
timestamp (a counter standing for `time.Time`). -/
structure FlightVariable where
  Name : String
  SimVar : String
  Units : String
  Value : Nat
  Updated : Nat
deriving Repr, DecidableEq

/-- The mutable state of `FlightDataManager` (flight_data.go lines
20-32). The buffered error channel `make(chan error, 10)` is modelled as
a FIFO list, oldest first, holding at most ten errors; `client` and the
goroutine plumbing (`stopChan`, mutex) carry no data the claims need. -/
structure FlightDataManager where
  «variables» : List FlightVariable
  definitions : List Nat
  requests : List Nat
  running : Bool
  errorChan : List GoError
  dataCount : Nat
  errorCount : Nat
  lastUpdate : Nat
deriving Repr, DecidableEq

/-- Capacity of the buffered error channel (`make(chan error, 10)`). -/
def errorChanCapacity : Nat := 10

/-- The `NewFlightDataManager` (flight_data.go lines 35-41). -/
def NewFlightDataManager : FlightDataManager :=
  { «variables» := [], definitions := [], requests := [], running := false,
    errorChan := [], dataCount := 0, errorCount := 0, lastUpdate := 0 }

/-- The non-blocking send `select { case errorChan <- err: default: }` on
the capacity-10 buffered channel: enqueue at the back when a slot is
free, otherwise drop the newly offered error and leave the queue as is. -/
def chanSendNonBlocking (chan : List GoError) (e : GoError) : List GoError :=
  if chan.length < errorChanCapacity then chan ++ [e] else chan

/-- The `AddVariable` (flight_data.go lines 44-76): reject while running;
compute `defineID = index + 1` and `requestID = 1000 + index * 1000`
(both converted to 32-bit identifier types, hence reduced mod `2 ^ 32`);
invoke the native `AddToDataDefinition` call, whose outcome is the
`callResult` argument; on native failure return a wrapped error without
touching the state; on success append the fresh variable record and its
two identifiers. -/
def FlightDataManager.AddVariable (fdm : FlightDataManager)
    (name simVar units : String) (callResult : Except GoError Unit) :
    Except GoError Unit × FlightDataManager :=
  if fdm.running then
    (Except.error (GoError.errorf "cannot add variables while data manager is running"), fdm)
  else
    let index := fdm.«variables».length
    let defineID := (index + 1) % 2 ^ 32
    let requestID := (1000 + index * 1000) % 2 ^ 32
    match callResult with
    | Except.error _ =>
        (Except.error (GoError.errorf ("failed to add variable " ++ name)), fdm)
    | Except.ok _ =>
        (Except.ok (),
         { fdm with
             «variables» := fdm.«variables» ++
               [{ Name := name, SimVar := simVar, Units := units,
                  Value := 0, Updated := 0 }]
             definitions := fdm.definitions ++ [defineID]
             requests := fdm.requests ++ [requestID] })

/-- One update step of `collectData` (flight_data.go lines 221-288) on
the state, given the outcome of the `GetRawDispatch` call and the
current time. A pull error or an empty queue changes nothing; a message
whose 12-byte base header cannot be parsed, or a simulation-object-data
message shorter than the 40-byte struct, increments the error count and
offers the parse error to the channel; a data message with a payload
shorter than 8 bytes is ignored; otherwise the request ID is looked up
in `requests` and on a hit the matching variable gets the decoded value
and timestamp while the counters advance — on a miss (the request ID is
registered nowhere) the code only prints a debug line and returns, so
the state is returned unchanged. -/
def FlightDataManager.collectData (fdm : FlightDataManager)
    (dispatch : Except GoError (Option (List Nat))) (now : Nat) :
    FlightDataManager :=
  match dispatch with
  | Except.error _ => fdm
  | Except.ok none => fdm
  | Except.ok (some data) =>
    match ParseMessageType data with
    | Except.error e =>
        { fdm with errorCount := fdm.errorCount + 1,
                   errorChan := chanSendNonBlocking fdm.errorChan e }
    | Except.ok msgType =>
      if msgType == SIMCONNECT_RECV_ID_SIMOBJECT_DATA then
        match ParseSimObjectData data with
        | Except.error e =>
            { fdm with errorCount := fdm.errorCount + 1,
                       errorChan := chanSendNonBlocking fdm.errorChan e }
        | Except.ok (header, simData) =>
          if simData.length < 8 then fdm
          else
            let requestID := header.DwRequestID
            match fdm.requests.findIdx? (fun reqID => reqID == requestID) with
            | none => fdm
            | some variableIndex =>
              if variableIndex < fdm.«variables».length then
                let value := readFloat64Bits simData
                { fdm with
                    «variables» := fdm.«variables».mapIdx (fun i v =>
                      if i = variableIndex then
                        { v with Value := value, Updated := now }
                      else v)
                    dataCount := fdm.dataCount + 1
                    lastUpdate := now }
              else fdm
      else fdm

/-- One native `RequestDataOnSimObject` invocation recorded during
`Start`, with the exact arguments the Go code passes. -/
structure ArmCall where
  requestID : Nat
  defineID : Nat
  objectID : Nat
  period : Nat
  flags : Nat
  origin : Nat
  interval : Nat
  limit : Nat
deriving Repr, DecidableEq

/-- The native `RequestDataOnSimObjectWithFlags` arguments `Start`
passes for one (requestID, defineID) pair: user aircraft, period
once-per-second, changed-only flag, zero origin/interval/limit
(flight_data.go lines 126-134). -/
def mkArmCall (entry : Nat × Nat × String) : ArmCall :=
  { requestID := entry.1
    defineID := entry.2.1
    objectID := SIMCONNECT_OBJECT_ID_USER
    period := SIMCONNECT_PERIOD_SECOND
    flags := SIMCONNECT_DATA_REQUEST_FLAG_CHANGED
    origin := 0, interval := 0, limit := 0 }

/-- The arming loop of `Start` (flight_data.go lines 125-140) over the
remaining (requestID, defineID, variable-name) triples, carrying the
position `i` of the next call: issue the native request for each triple
in order, stopping at the first native failure with the wrapped error.
Returns the outcome together with the native calls actually made (the
failing attempt included). `armResults k` is the outcome the DLL gives
the `k`-th call. -/
def armLoop (armResults : Nat → Except GoError Unit) :
    Nat → List (Nat × Nat × String) → Except GoError Unit × List ArmCall
  | _, [] => (Except.ok (), [])
  | i, entry :: rest =>
    match armResults i with
    | Except.error _ =>
        (Except.error (GoError.errorf
          ("failed to request data for variable " ++ entry.2.2)),
         [mkArmCall entry])
    | Except.ok _ =>
        let r := armLoop armResults (i + 1) rest
        (r.1, mkArmCall entry :: r.2)

/-- The (requestID, defineID, name) triples `Start` walks, in order.
The Go loop ranges over `requests` and indexes `definitions` and
`variables` at the same position; the three slices always have equal
length because only `AddVariable` extends them, together. -/
def FlightDataManager.armEntries (fdm : FlightDataManager) :
    List (Nat × Nat × String) :=
  fdm.requests.zip (fdm.definitions.zip (fdm.«variables».map (fun v => v.Name)))

/-- The `Start` (flight_data.go lines 112-148): reject when already running
or when no variables were added; otherwise arm every variable in order
with period once-per-second and the changed-only flag; the first native
failure aborts the call with the wrapped error and leaves `running`
false; on success `running` becomes true. The list of native calls made
is returned alongside. -/
def FlightDataManager.Start (fdm : FlightDataManager)
    (armResults : Nat → Except GoError Unit) :
    Except GoError Unit × FlightDataManager × List ArmCall :=
  if fdm.running then
    (Except.error (GoError.errorf "data manager is already running"), fdm, [])
  else if fdm.«variables».length == 0 then
    (Except.error (GoError.errorf "no variables added"), fdm, [])
  else
    match armLoop armResults 0 fdm.armEntries with
    | (Except.error e, calls) => (Except.error e, fdm, calls)
    | (Except.ok _, calls) =>
        (Except.ok (), { fdm with running := true }, calls)

/-- The `GetStats` (flight_data.go lines 189-193). -/
def FlightDataManager.GetStats (fdm : FlightDataManager) : Nat × Nat × Nat :=
  (fdm.dataCount, fdm.errorCount, fdm.lastUpdate)

/-! ## SystemEventManager (pkg/client/system_events.go) -/

/-- A user callback value (`SystemEventCallback`), kept abstract: the
model only tracks which callback is registered, never runs it. -/
def SystemEventCallback : Type := Nat

/-- The mutable state of `SystemEventManager` (system_events.go lines
299-308). The two Go maps are modelled as association lists whose keys
are always fresh (event IDs come from the strictly increasing `nextID`
counter, so a map store never overwrites an existing key); `client` is
represented by an explicit open flag where needed. -/
structure SystemEventManager where
  callbacks : List (Nat × Nat)
  eventNames : List (Nat × String)
  running : Bool
  errorChan : List GoError
  nextID : Nat
deriving Repr, DecidableEq

/-- The `NewSystemEventManager` (system_events.go lines 311-321): empty maps,
not running, capacity-10 error channel, IDs starting at 1000. -/
def NewSystemEventManager : SystemEventManager :=
  { callbacks := [], eventNames := [], running := false,
    errorChan := [], nextID := 1000 }

/-- The `SubscribeToEvent` (system_events.go lines 324-346): reject when the
client is not open; take the next event ID and advance the counter (the
counter stays advanced even when the native subscribe then fails);
invoke the native `SubscribeToSystemEvent`, whose outcome is
`callResult`; on failure return the wrapped error, on success record the
callback and the event name under the fresh ID. -/
def SystemEventManager.SubscribeToEvent (sem : SystemEventManager)
    (clientOpen : Bool) (eventName : String) (cb : Nat)
    (callResult : Except GoError Unit) :
    Except GoError Nat × SystemEventManager :=
  if !clientOpen then
    (Except.error (GoError.errorf "SimConnect client is not open"), sem)
  else
    let eventID := sem.nextID
    let sem' := { sem with nextID := sem.nextID + 1 }
    match callResult with
    | Except.error _ =>
        (Except.error (GoError.errorf
          ("failed to subscribe to event " ++ eventName)), sem')
    | Except.ok _ =>
        (Except.ok eventID,
         { sem' with callbacks := sem'.callbacks ++ [(eventID, cb)]
                     eventNames := sem'.eventNames ++ [(eventID, eventName)] })

/-- The loop body of `SubscribeToCommonEvents` (system_events.go lines
655-659): subscribe each remaining entry in turn, returning the first
failure wrapped — without undoing the subscriptions already made.
`subResults` is the native outcome of the subscribe call per name. -/
def subscribeCommonLoop (clientOpen : Bool)
    (subResults : String → Except GoError Unit) :
    SystemEventManager → List (String × Nat) →
      Except GoError Unit × SystemEventManager
  | sem, [] => (Except.ok (), sem)
  | sem, (eventName, cb) :: rest =>
    match sem.SubscribeToEvent clientOpen eventName cb (subResults eventName) with
    | (Except.error _, sem') =>
        (Except.error (GoError.errorf ("failed to subscribe to " ++ eventName)), sem')
    | (Except.ok _, sem') =>
        subscribeCommonLoop clientOpen subResults sem' rest

/-- The `SubscribeToCommonEvents` (system_events.go lines 654-661): iterate
the callback map, subscribing each entry. Go map iteration order is
unspecified, so the entries are supplied as a list giving one
admissible order. -/
def SystemEventManager.SubscribeToCommonEvents (sem : SystemEventManager)
    (clientOpen : Bool) (entries : List (String × Nat))
    (subResults : String → Except GoError Unit) :
    Except GoError Unit × SystemEventManager :=
  subscribeCommonLoop clientOpen subResults sem entries

end GoSimconnect

namespace GoSimconnect.SetData

/-- Modelled from the spec: the write-path extension of the Variable
Manager (`AddVariableWithWritable`, `SetVariable`, `SetVariableByIndex`
and the `Writable` field of `FlightVariable`) is documented in
docs/SetDataImplementation.md and docs/api/client.md and invoked by
examples under src, but the file implementing it is absent from src;
this variable record follows the documented enhanced struct, with the
write-permission flag added. -/
structure FlightVariable where
  Name : String
  SimVar : String
  Units : String
  Value : Nat
  Updated : Nat
  Writable : Bool
deriving Repr, DecidableEq

/-- Modelled from the spec: the manager state the write path needs — the
tracked variable records and their per-variable definition IDs. -/
structure Manager where
  «variables» : List FlightVariable
  definitions : List Nat
deriving Repr, DecidableEq

/-- A call into the ABI Bridge made by the write path: the single
whole-payload replace `SetDataOnSimObject(defineID, objectID, flags,
payload)` used for writes. -/
structure BridgeCall where
  defineID : Nat
  objectID : Nat
  flags : Nat
  payload : List Nat
deriving Repr, DecidableEq

/-- Little-endian bytes of a 64-bit word: the 8-byte payload encoding
the float64 bit pattern a write sends. -/
def float64Bytes (bits : Nat) : List Nat :=
  (List.range 8).map (fun i => bits / 256 ^ i % 256)

/-- Modelled from the spec: `SetVariableByIndex(i, value)` (docs/api/
client.md, docs/SetDataImplementation.md). An out-of-range index fails
with an index error and no bridge call; a variable not marked writable
fails with the documented "not writable" error and no bridge call;
otherwise one `SetDataOnSimObject` whole-payload replace is issued for
that variable's own definition, targeting the user aircraft in
non-tagged mode with the 8-byte float64 payload, and its native outcome
`bridgeResult` is returned. The bridge calls made are returned
alongside. -/
def Manager.SetVariableByIndex (m : Manager) (index : Nat) (value : Nat)
    (bridgeResult : Except GoError Unit) :
    Except GoError Unit × List BridgeCall :=
  if h : index < m.«variables».length then
    let v := m.«variables».get ⟨index, h⟩
    if !v.Writable then
      (Except.error (GoError.errorf
        ("variable " ++ v.Name ++ " is not writable")), [])
    else
      let call : BridgeCall :=
        { defineID := m.definitions.getD index 0
          objectID := 0
          flags := 0
          payload := float64Bytes value }
      (bridgeResult, [call])
  else
    (Except.error (GoError.errorf "variable index out of range"), [])

/-- Modelled from the spec: `SetVariable(name, value)` (docs/api/
client.md) — look the variable up by name, failing with "not found"
when absent, and otherwise write through `SetVariableByIndex`. -/
def Manager.SetVariable (m : Manager) (name : String) (value : Nat)
    (bridgeResult : Except GoError Unit) :
    Except GoError Unit × List BridgeCall :=
  match m.«variables».findIdx? (fun v => v.Name == name) with
  | none => (Except.error (GoError.errorf ("variable " ++ name ++ " not found")), [])
  | some index => m.SetVariableByIndex index value bridgeResult

end GoSimconnect.SetData

namespace GoSimconnect

/-! ## Theorems -/

/-- C7: `GetRawDispatch` on an open connection returns the no-message
sentinel (`none`) without error when the native call reports the
queue-empty status (`E_FAIL` in this code) or writes a NULL or
zero-sized data pointer; when a message is present it returns a
caller-owned copy of the native buffer of exactly the reported size
(byte `i` of the copy is byte `i` of native memory); any other
non-success status yields an error carrying the function name
`SimConnect_GetNextDispatch` and the raw code. -/
theorem C7_raw_pull_contract (c : Client) (r : DispatchCallOutcome)
    (hopen : c.isOpen = true) :
    (r.hresult = E_FAIL → c.GetRawDispatch r = Except.ok none) ∧
    (IsHRESULTSuccess r.hresult = true → (r.pData = 0 ∨ r.cbData = 0) →
       c.GetRawDispatch r = Except.ok none) ∧
    (IsHRESULTSuccess r.hresult = true → r.pData ≠ 0 → r.cbData ≠ 0 →
       c.GetRawDispatch r =
         Except.ok (some ((List.range r.cbData).map r.mem)) ∧
       ((List.range r.cbData).map r.mem).length = r.cbData) ∧
    (r.hresult ≠ E_FAIL → IsHRESULTSuccess r.hresult = false →
       c.GetRawDispatch r = Except.error (GoError.simconnect
         (NewSimConnectError "SimConnect_GetNextDispatch" r.hresult
           (GetHRESULTMessage r.hresult)))) := by
  refine ⟨?_, ?_, ?_, ?_⟩
  · intro h
    simp [Client.GetRawDispatch, hopen, h]
  · intro hsucc hzero
    have hok : r.hresult = S_OK := by
      simpa [IsHRESULTSuccess] using hsucc
    have hne : (r.hresult == E_FAIL) = false := by
      simp [hok, S_OK, E_FAIL]
    rcases hzero with h0 | h0 <;>
      simp [Client.GetRawDispatch, hopen, hne, hsucc, h0]
  · intro hsucc hp hc
    have hok : r.hresult = S_OK := by
      simpa [IsHRESULTSuccess] using hsucc
    have hne : (r.hresult == E_FAIL) = false := by
      simp [hok, S_OK, E_FAIL]
    constructor
    · simp [Client.GetRawDispatch, hopen, hne, hsucc, hp, hc]
    · simp
  · intro hne hfail
    have hne' : (r.hresult == E_FAIL) = false := by
      simpa using hne
    simp [Client.GetRawDispatch, hopen, hne', hfail]

/-- C7 witness: a concrete open client; the empty-queue status yields
the sentinel, and a 3-byte message is copied out in full. -/
theorem C7_raw_pull_contract_witness :
    Client.GetRawDispatch { handle := 1, isOpen := true, name := "T1" }
      { hresult := E_FAIL, pData := 0, cbData := 0, mem := fun _ => 0 } =
        Except.ok none ∧
    Client.GetRawDispatch { handle := 1, isOpen := true, name := "T1" }
      { hresult := S_OK, pData := 4096, cbData := 3, mem := fun _ => 7 } =
        Except.ok (some [7, 7, 7]) := by
  constructor
  · exact (C7_raw_pull_contract _ _ rfl).1 rfl
  · have h := (C7_raw_pull_contract
      { handle := 1, isOpen := true, name := "T1" }
      { hresult := S_OK, pData := 4096, cbData := 3, mem := fun _ => 7 }
      rfl).2.2.1 rfl (by decide) (by decide)
    rw [h.1]
    rfl

/-- C3 counterexample: a native call returning the remote-disconnect
status does not transition the connection: on a concrete open client the
call returns a wrapped native error (not a state change), `IsOpen` stays
true, the state is untouched, and a subsequent native call succeeds
instead of failing with "not open". -/
theorem C3_counterexample :
    (Client.RequestSystemState { handle := 5, isOpen := true, name := "T1" }
        STATUS_REMOTE_DISCONNECT "Sim").2.IsOpen = true ∧
    (Client.RequestSystemState { handle := 5, isOpen := true, name := "T1" }
        STATUS_REMOTE_DISCONNECT "Sim").2 =
      { handle := 5, isOpen := true, name := "T1" } ∧
    ((Client.RequestSystemState { handle := 5, isOpen := true, name := "T1" }
        STATUS_REMOTE_DISCONNECT "Sim").2.RequestSystemState S_OK "Sim").1 =
      Except.ok () ∧
    (Client.RequestSystemState { handle := 5, isOpen := true, name := "T1" }
        STATUS_REMOTE_DISCONNECT "Sim").1 =
      Except.error (GoError.simconnect
        { Function := "SimConnect_RequestSystemState",
          HRESULT := STATUS_REMOTE_DISCONNECT,
          Message := "Remote connection lost" }) :=
  ⟨rfl, rfl, rfl, rfl⟩

/-- C3 (amended): the remote-disconnect status on a native call is
wrapped and returned as an ordinary native error carrying the raw code
and the message "Remote connection lost"; the connection state (open
flag and handle) is unchanged, so subsequent operations still reach the
native layer — only a connection that is not open (never opened, or
closed successfully) fails with the distinct "not open" error. -/
theorem C3_remote_disconnect_plain_error (c : Client) (state : String)
    (r : DispatchCallOutcome)
    (hopen : c.isOpen = true) (hstr : hasNullByte state = false) :
    c.RequestSystemState STATUS_REMOTE_DISCONNECT state =
      (Except.error (GoError.simconnect
        (NewSimConnectError "SimConnect_RequestSystemState"
          STATUS_REMOTE_DISCONNECT "Remote connection lost")), c) ∧
    (c.RequestSystemState S_OK state).1 = Except.ok () ∧
    (r.hresult = STATUS_REMOTE_DISCONNECT →
       c.GetRawDispatch r = Except.error (GoError.simconnect
         (NewSimConnectError "SimConnect_GetNextDispatch"
           STATUS_REMOTE_DISCONNECT "Remote connection lost"))) ∧
    (c.Close STATUS_REMOTE_DISCONNECT).2 = c ∧
    (c.isOpen = false →
      (c.RequestSystemState STATUS_REMOTE_DISCONNECT state).1 =
        Except.error (GoError.errorf "client is not open")) := by
  refine ⟨?_, ?_, ?_, ?_, ?_⟩
  · simp [Client.RequestSystemState, hopen, hstr, IsHRESULTSuccess,
      STATUS_REMOTE_DISCONNECT, S_OK, GetHRESULTMessage, E_FAIL, E_INVALIDARG]
  · simp [Client.RequestSystemState, hopen, hstr, IsHRESULTSuccess, S_OK]
  · intro hr
    simp [Client.GetRawDispatch, hopen, hr, IsHRESULTSuccess,
      STATUS_REMOTE_DISCONNECT, S_OK, GetHRESULTMessage, E_FAIL, E_INVALIDARG]
  · simp [Client.Close, hopen, IsHRESULTSuccess, STATUS_REMOTE_DISCONNECT, S_OK,
      GetHRESULTMessage, E_FAIL, E_INVALIDARG]
  · intro hclosed
    rw [hclosed] at hopen
    exact absurd hopen (by decide)

/-- C3 witness: the amended behavior at a concrete open client. -/
theorem C3_remote_disconnect_plain_error_witness :
    Client.RequestSystemState { handle := 5, isOpen := true, name := "T2" }
        STATUS_REMOTE_DISCONNECT "Sim" =
      (Except.error (GoError.simconnect
        (NewSimConnectError "SimConnect_RequestSystemState"
          STATUS_REMOTE_DISCONNECT "Remote connection lost")),
       { handle := 5, isOpen := true, name := "T2" }) := by
  exact (C3_remote_disconnect_plain_error
    { handle := 5, isOpen := true, name := "T2" } "Sim"
    { hresult := 0, pData := 0, cbData := 0, mem := fun _ => 0 }
    rfl (by decide)).1

/-- C10 counterexample: Open does not leave `IsOpen` false on every
error — on an already-open client the error is returned with the flag
still true; and a failing native open overwrites the stored handle
through the out-parameter (a fresh client whose native open writes 7 and
fails ends with handle 7, not its previous 0). -/
theorem C10_counterexample :
    (Client.Open { handle := 7, isOpen := true, name := "T1" }
        { hresult := S_OK, handleOut := 9 }).1 =
      Except.error (GoError.errorf "client is already open") ∧
    (Client.Open { handle := 7, isOpen := true, name := "T1" }
        { hresult := S_OK, handleOut := 9 }).2.IsOpen = true ∧
    (NewClient "T1").handle = 0 ∧
    ((NewClient "T1").Open { hresult := E_FAIL, handleOut := 7 }).1 =
      Except.error (GoError.simconnect
        { Function := "SimConnect_Open", HRESULT := E_FAIL,
          Message := "General failure" }) ∧
    ((NewClient "T1").Open { hresult := E_FAIL, handleOut := 7 }).2.handle = 7 :=
  ⟨rfl, rfl, rfl, rfl, rfl⟩

/-- C10 (amended): Open leaves the whole state unchanged on the
already-open and string-conversion errors (so `IsOpen` keeps its prior
value — true in the already-open case, false otherwise); on a native
failure `IsOpen` remains false but the handle field holds whatever the
native call wrote through the out-parameter; and if Close returns a
native error then the state is fully retained (`IsOpen` still true,
handle kept), so the close may be retried. -/
theorem C10_open_close_error_state (c : Client) (native : OpenCallOutcome)
    (hres : Nat) :
    (c.isOpen = true →
       c.Open native = (Except.error (GoError.errorf "client is already open"), c)) ∧
    (c.isOpen = false → hasNullByte c.name = true →
       c.Open native =
         (Except.error (GoError.errorf "failed to convert name to bytes"), c)) ∧
    (c.isOpen = false → hasNullByte c.name = false →
       IsHRESULTSuccess native.hresult = false →
       c.Open native =
         (Except.error (GoError.simconnect (NewSimConnectError "SimConnect_Open"
            native.hresult (GetHRESULTMessage native.hresult))),
          { c with handle := native.handleOut }) ∧
       (c.Open native).2.IsOpen = false) ∧
    (c.isOpen = true → IsHRESULTSuccess hres = false →
       c.Close hres =
         (Except.error (GoError.simconnect (NewSimConnectError "SimConnect_Close"
            hres (GetHRESULTMessage hres))), c)) := by
  refine ⟨?_, ?_, ?_, ?_⟩
  · intro h
    simp [Client.Open, h]
  · intro h hnull
    simp [Client.Open, h, hnull]
  · intro h hnull hfail
    constructor
    · simp [Client.Open, h, hnull, hfail]
    · simp [Client.Open, Client.IsOpen, h, hnull, hfail]
  · intro h hfail
    simp [Client.Close, h, hfail]

/-- C10 witness: the amended behavior at concrete clients — an
already-open client, a fresh client with a failing native open, and an
open client with a failing native close. -/
theorem C10_open_close_error_state_witness :
    Client.Open { handle := 7, isOpen := true, name := "T1" }
        { hresult := S_OK, handleOut := 9 } =
      (Except.error (GoError.errorf "client is already open"),
       { handle := 7, isOpen := true, name := "T1" }) ∧
    ((NewClient "T3").Open { hresult := E_FAIL, handleOut := 7 }).2.IsOpen = false ∧
    Client.Close { handle := 7, isOpen := true, name := "T1" } E_FAIL =
      (Except.error (GoError.simconnect (NewSimConnectError "SimConnect_Close"
        E_FAIL (GetHRESULTMessage E_FAIL))),
       { handle := 7, isOpen := true, name := "T1" }) := by
  refine ⟨?_, ?_, ?_⟩
  · exact (C10_open_close_error_state
      { handle := 7, isOpen := true, name := "T1" }
      { hresult := S_OK, handleOut := 9 } 0).1 rfl
  · exact ((C10_open_close_error_state (NewClient "T3")
      { hresult := E_FAIL, handleOut := 7 } 0).2.2.1 rfl (by decide) (by decide)).2
  · exact (C10_open_close_error_state
      { handle := 7, isOpen := true, name := "T1" }
      { hresult := S_OK, handleOut := 9 } E_FAIL).2.2.2 rfl (by decide)

/-- A sample manager holding one variable, reached from a fresh manager
by one successful `AddVariable` (it gets request ID 1000). -/
def fdmAlt : FlightDataManager :=
  (NewFlightDataManager.AddVariable "Altitude" "Plane Altitude" "feet"
    (Except.ok ())).2

/-- A sample manager holding two variables, reached from `fdmAlt` by a
second successful `AddVariable`. -/
def fdmTwo : FlightDataManager :=
  (fdmAlt.AddVariable "Indicated Airspeed" "Airspeed Indicated" "knots"
    (Except.ok ())).2

/-- A 48-byte simulation-object-data message (DwID = 8 at offset 8)
whose request ID field at offset 12 is 99999 (bytes 159, 134, 1, 0
little-endian), with an 8-byte payload after the 40-byte struct. -/
def unknownReqMsg : List Nat :=
  [48, 0, 0, 0,
   0, 0, 0, 0,
   8, 0, 0, 0,
   159, 134, 1, 0,
   0, 0, 0, 0,
   1, 0, 0, 0,
   0, 0, 0, 0,
   0, 0, 0, 0,
   0, 0, 0, 0,
   1, 0, 0, 0,
   0, 0, 0, 0, 0, 0, 0, 0]

/-- C1 counterexample: feeding the manager holding one variable
(request ID 1000) a data-sample with the unallocated request ID 99999
leaves the whole state unchanged — `get_stats` reports an error count
of 0, not 1, and nothing is published on the error channel (the value
map is indeed unchanged, but so is everything else: the code only
prints a debug line on a request-ID miss). -/
theorem C1_counterexample :
    fdmAlt.collectData (Except.ok (some unknownReqMsg)) 5 = fdmAlt ∧
    (fdmAlt.collectData (Except.ok (some unknownReqMsg)) 5).GetStats.2.1 = 0 ∧
    (fdmAlt.collectData (Except.ok (some unknownReqMsg)) 5).errorChan = [] ∧
    fdmAlt.requests = [1000] ∧
    ¬(fdmAlt.collectData (Except.ok (some unknownReqMsg)) 5).GetStats.2.1 = 1 := by
  refine ⟨rfl, rfl, rfl, rfl, by decide⟩

/-- C1 (amended): a data-sample message whose request ID matches no
registered variable is ignored apart from a debug log — the error count,
the error channel, and every variable's value and timestamp stay
unchanged (the manager state is returned exactly as it was); the error
count and error channel move only on parse failures. -/
theorem C1_unknown_request_id_ignored (fdm : FlightDataManager)
    (data : List Nat) (now : Nat)
    (hlen : 48 ≤ data.length)
    (htype : readU32 data 8 = SIMCONNECT_RECV_ID_SIMOBJECT_DATA)
    (hmiss : ∀ r ∈ fdm.requests, r ≠ readU32 data 12) :
    fdm.collectData (Except.ok (some data)) now = fdm := by
  have h12 : ¬data.length < SIMCONNECT_RECV_SIZE := by
    unfold SIMCONNECT_RECV_SIZE
    omega
  have h40 : ¬data.length < SIMOBJECT_DATA_HEADER_SIZE := by
    unfold SIMOBJECT_DATA_HEADER_SIZE
    omega
  have hdrop : ¬(data.drop SIMOBJECT_DATA_HEADER_SIZE).length < 8 := by
    rw [List.length_drop]
    unfold SIMOBJECT_DATA_HEADER_SIZE
    omega
  have hfind :
      fdm.requests.findIdx? (fun reqID => reqID == readU32 data 12) = none := by
    rw [List.findIdx?_eq_none_iff]
    intro x hx
    simpa using hmiss x hx
  simp [FlightDataManager.collectData, ParseMessageType, ParseSimObjectData,
    h12, h40, htype, hdrop, hfind]

/-- C1 witness: the amended theorem at the concrete one-variable
manager and the concrete request-ID-99999 message. -/
theorem C1_unknown_request_id_ignored_witness :
    fdmAlt.collectData (Except.ok (some unknownReqMsg)) 7 = fdmAlt :=
  C1_unknown_request_id_ignored fdmAlt unknownReqMsg 7 (by decide) (by decide)
    (by decide)

/-- C2 counterexample: offering an eleventh error to a full ten-slot
channel leaves the channel exactly as it was — the newly published
error is the one dropped (it is not retained) and the oldest queued
error is still at the front, contradicting drop-oldest/keep-newest. -/
theorem C2_counterexample :
    chanSendNonBlocking
      [GoError.errorf "0", GoError.errorf "1", GoError.errorf "2",
       GoError.errorf "3", GoError.errorf "4", GoError.errorf "5",
       GoError.errorf "6", GoError.errorf "7", GoError.errorf "8",
       GoError.errorf "9"] (GoError.errorf "new") =
      [GoError.errorf "0", GoError.errorf "1", GoError.errorf "2",
       GoError.errorf "3", GoError.errorf "4", GoError.errorf "5",
       GoError.errorf "6", GoError.errorf "7", GoError.errorf "8",
       GoError.errorf "9"] ∧
    GoError.errorf "new" ∉
      chanSendNonBlocking
        [GoError.errorf "0", GoError.errorf "1", GoError.errorf "2",
         GoError.errorf "3", GoError.errorf "4", GoError.errorf "5",
         GoError.errorf "6", GoError.errorf "7", GoError.errorf "8",
         GoError.errorf "9"] (GoError.errorf "new") ∧
    chanSendNonBlocking
        [GoError.errorf "0", GoError.errorf "1", GoError.errorf "2",
         GoError.errorf "3", GoError.errorf "4", GoError.errorf "5",
         GoError.errorf "6", GoError.errorf "7", GoError.errorf "8",
         GoError.errorf "9"] (GoError.errorf "new") ≠
      [GoError.errorf "1", GoError.errorf "2", GoError.errorf "3",
       GoError.errorf "4", GoError.errorf "5", GoError.errorf "6",
       GoError.errorf "7", GoError.errorf "8", GoError.errorf "9",
       GoError.errorf "new"] := by
  refine ⟨rfl, by decide, by decide⟩

/-- C2 (amended): the managers' background error channels are bounded
at capacity 10 (both managers build `make(chan error, 10)` and start
empty), and when an error is published while the channel is full the
*newly offered* error is dropped (the `select`/`default` send), leaving
the queued errors — the oldest included — untouched; a publish below
capacity appends, and the bound 10 is preserved. -/
theorem C2_error_channel_capacity_drop_newest (chan : List GoError)
    (e : GoError) :
    errorChanCapacity = 10 ∧
    NewFlightDataManager.errorChan = [] ∧
    NewSystemEventManager.errorChan = [] ∧
    (chan.length < 10 → chanSendNonBlocking chan e = chan ++ [e]) ∧
    (10 ≤ chan.length → chanSendNonBlocking chan e = chan) ∧
    (chan.length ≤ 10 → (chanSendNonBlocking chan e).length ≤ 10) := by
  refine ⟨rfl, rfl, rfl, ?_, ?_, ?_⟩
  · intro h
    simp [chanSendNonBlocking, errorChanCapacity, h]
  · intro h
    simp [chanSendNonBlocking, errorChanCapacity, Nat.not_lt.mpr h]
  · intro h
    by_cases h' : chan.length < 10
    · simp only [chanSendNonBlocking, errorChanCapacity, if_pos h',
        List.length_append, List.length_cons, List.length_nil]
      omega
    · simp only [chanSendNonBlocking, errorChanCapacity, if_neg h']
      omega

/-- C2 witness: a publish below capacity appends; a publish on a full
channel is dropped. -/
theorem C2_error_channel_capacity_drop_newest_witness :
    chanSendNonBlocking [] (GoError.errorf "x") = [GoError.errorf "x"] ∧
    chanSendNonBlocking
      [GoError.errorf "a", GoError.errorf "a", GoError.errorf "a",
       GoError.errorf "a", GoError.errorf "a", GoError.errorf "a",
       GoError.errorf "a", GoError.errorf "a", GoError.errorf "a",
       GoError.errorf "a"] (GoError.errorf "x") =
      [GoError.errorf "a", GoError.errorf "a", GoError.errorf "a",
       GoError.errorf "a", GoError.errorf "a", GoError.errorf "a",
       GoError.errorf "a", GoError.errorf "a", GoError.errorf "a",
       GoError.errorf "a"] := by
  constructor
  · exact (C2_error_channel_capacity_drop_newest [] (GoError.errorf "x")).2.2.2.1
      (by decide)
  · exact (C2_error_channel_capacity_drop_newest
      [GoError.errorf "a", GoError.errorf "a", GoError.errorf "a",
       GoError.errorf "a", GoError.errorf "a", GoError.errorf "a",
       GoError.errorf "a", GoError.errorf "a", GoError.errorf "a",
       GoError.errorf "a"] (GoError.errorf "x")).2.2.2.2.1 (by decide)

/-- C4 counterexample: adding a variable named "A" to a manager that
already holds a variable named "A" succeeds (no duplicate-name error is
returned), leaving the manager with two variables of the same name — so
name uniqueness does not hold in every reachable state. -/
theorem C4_counterexample :
    ((NewFlightDataManager.AddVariable "A" "Sim A" "u"
        (Except.ok ())).2.AddVariable "A" "Sim B" "u2" (Except.ok ())).1 =
      Except.ok () ∧
    (((NewFlightDataManager.AddVariable "A" "Sim A" "u"
        (Except.ok ())).2.AddVariable "A" "Sim B" "u2"
          (Except.ok ())).2.«variables».map (fun v => v.Name)) = ["A", "A"] :=
  ⟨rfl, rfl⟩

/-- C4 (amended): `AddVariable` performs no duplicate-name check — it
fails synchronously only when the manager is already running (or when
the native definition call fails); with the manager configuring and the
native call succeeding it accepts any name, one already registered
included, appending the record, so variable names need not be unique
within the manager. -/
theorem C4_no_duplicate_name_check (fdm : FlightDataManager)
    (name simVar units : String) :
    (fdm.running = false →
       (fdm.AddVariable name simVar units (Except.ok ())).1 = Except.ok () ∧
       ((fdm.AddVariable name simVar units (Except.ok ())).2.«variables».map
          (fun v => v.Name)) =
         (fdm.«variables».map (fun v => v.Name)) ++ [name]) ∧
    (fdm.running = true →
       fdm.AddVariable name simVar units (Except.ok ()) =
         (Except.error
           (GoError.errorf "cannot add variables while data manager is running"),
          fdm)) := by
  constructor
  · intro h
    constructor
    · simp [FlightDataManager.AddVariable, h]
    · simp [FlightDataManager.AddVariable, h]
  · intro h
    simp [FlightDataManager.AddVariable, h]

/-- C4 witness: the amended behavior at the one-variable manager — a
second "Altitude" is accepted even though one is registered. -/
theorem C4_no_duplicate_name_check_witness :
    (fdmAlt.AddVariable "Altitude" "Plane Altitude" "feet"
       (Except.ok ())).1 = Except.ok () ∧
    ((fdmAlt.AddVariable "Altitude" "Plane Altitude" "feet"
       (Except.ok ())).2.«variables».map (fun v => v.Name)) =
      ["Altitude", "Altitude"] := by
  have h := C4_no_duplicate_name_check fdmAlt "Altitude" "Plane Altitude" "feet"
  refine ⟨(h.1 (by decide)).1, ?_⟩
  rw [(h.1 (by decide)).2]
  decide

/-- The identifier-allocation invariant of the Variable Manager: the
i-th registered variable owns definition ID `(i + 1) % 2 ^ 32` and
request ID `(1000 + i * 1000) % 2 ^ 32` (the 32-bit identifier types). -/
def goodIDs (fdm : FlightDataManager) : Prop :=
  fdm.definitions =
    (List.range fdm.«variables».length).map (fun i => (i + 1) % 2 ^ 32) ∧
  fdm.requests =
    (List.range fdm.«variables».length).map (fun i => (1000 + i * 1000) % 2 ^ 32)

instance (fdm : FlightDataManager) : Decidable (goodIDs fdm) := by
  unfold goodIDs
  infer_instance

/-- C8: a fresh manager satisfies the allocation invariant, every
`AddVariable` (any native outcome) preserves it, and under it the i-th
variable (counting from zero) has definition ID `i + 1` and request ID
`1000 + 1000 * i` — the widely-spaced buckets 1000, 2000, 3000, … — so
for every pair of distinct registered variables both identifiers
differ, and identifiers are never reused (the side condition bounds the
variable count so the 32-bit conversion of `1000 + 1000 * i` cannot
wrap; any physically realizable state satisfies it). -/
theorem C8_id_allocation (fdm : FlightDataManager) (name simVar units : String)
    (r : Except GoError Unit) :
    goodIDs NewFlightDataManager ∧
    (goodIDs fdm → goodIDs (fdm.AddVariable name simVar units r).2) ∧
    (goodIDs fdm → fdm.«variables».length ≤ 4294966 →
       (∀ i, i < fdm.«variables».length →
          fdm.definitions.getD i 0 = i + 1 ∧
          fdm.requests.getD i 0 = 1000 + 1000 * i) ∧
       (∀ i j, i < fdm.«variables».length → j < fdm.«variables».length →
          i ≠ j →
          fdm.definitions.getD i 0 ≠ fdm.definitions.getD j 0 ∧
          fdm.requests.getD i 0 ≠ fdm.requests.getD j 0)) := by
  have hval : ∀ (g : FlightDataManager), goodIDs g →
      g.«variables».length ≤ 4294966 →
      ∀ i, i < g.«variables».length →
        g.definitions.getD i 0 = i + 1 ∧
        g.requests.getD i 0 = 1000 + 1000 * i := by
    intro g hg hlen i hi
    obtain ⟨hd, hr⟩ := hg
    have hi' : i < (List.range g.«variables».length).length := by
      simpa using hi
    constructor
    · rw [hd, List.getD_eq_getElem?_getD, List.getElem?_eq_getElem (by simpa using hi)]
      simp only [List.getElem_map, List.getElem_range, Option.getD_some]
      exact Nat.mod_eq_of_lt (by omega)
    · rw [hr, List.getD_eq_getElem?_getD, List.getElem?_eq_getElem (by simpa using hi)]
      simp only [List.getElem_map, List.getElem_range, Option.getD_some]
      rw [Nat.mod_eq_of_lt (by omega)]
      ring
  refine ⟨?_, ?_, ?_⟩
  · constructor <;> rfl
  · intro hg
    obtain ⟨hd, hr⟩ := hg
    unfold FlightDataManager.AddVariable
    by_cases hrun : fdm.running
    · simp only [hrun, if_true]
      exact ⟨hd, hr⟩
    · cases r with
      | error e =>
          simp only [hrun, if_false]
          exact ⟨hd, hr⟩
      | ok u =>
          simp only [hrun, if_false]
          refine ⟨?_, ?_⟩
          · simp [hd, List.range_succ]
          · simp [hr, List.range_succ]
  · intro hg hlen
    refine ⟨hval fdm hg hlen, ?_⟩
    intro i j hi hj hij
    obtain ⟨hdi, hri⟩ := hval fdm hg hlen i hi
    obtain ⟨hdj, hrj⟩ := hval fdm hg hlen j hj
    constructor
    · rw [hdi, hdj]
      omega
    · rw [hri, hrj]
      omega

/-- C8 witness: at the concrete two-variable manager the allocated IDs
are definition IDs 1 and 2 and request IDs 1000 and 2000, and the two
variables' identifiers differ in both spaces. -/
theorem C8_id_allocation_witness :
    (fdmTwo.definitions.getD 0 0 = 1 ∧ fdmTwo.requests.getD 0 0 = 1000) ∧
    (fdmTwo.definitions.getD 1 0 = 2 ∧ fdmTwo.requests.getD 1 0 = 2000) ∧
    fdmTwo.definitions.getD 0 0 ≠ fdmTwo.definitions.getD 1 0 ∧
    fdmTwo.requests.getD 0 0 ≠ fdmTwo.requests.getD 1 0 := by
  have h := (C8_id_allocation fdmTwo "x" "y" "z" (Except.ok ())).2.2
    (by decide) (by decide)
  refine ⟨h.1 0 (by decide), ?_, h.2 0 1 (by decide) (by decide) (by decide)⟩
  have h1 := h.1 1 (by decide)
  simpa using h1

/-- When every native arm call succeeds, the arming loop succeeds and
issues exactly one call per entry, in order. -/
theorem armLoop_all_ok (armResults : Nat → Except GoError Unit) :
    ∀ (entries : List (Nat × Nat × String)) (i : Nat),
      (∀ k, i ≤ k → k < i + entries.length → armResults k = Except.ok ()) →
      armLoop armResults i entries = (Except.ok (), entries.map mkArmCall) := by
  intro entries
  induction entries with
  | nil =>
      intro i _
      rfl
  | cons entry rest ih =>
      intro i h
      have h0 : armResults i = Except.ok () :=
        h i (Nat.le_refl i) (by simp only [List.length_cons]; omega)
      have hrest := ih (i + 1)
        (fun k hk1 hk2 => h k (by omega) (by simp only [List.length_cons]; omega))
      simp [armLoop, h0, hrest]

/-- When the native arm call at position `front.length` past `i` is the
first failure, the arming loop stops there: it returns the wrapped
error naming that entry's variable and issues only the calls for the
successful front plus the failing attempt. -/
theorem armLoop_first_error (armResults : Nat → Except GoError Unit)
    (e : GoError) :
    ∀ (front : List (Nat × Nat × String)) (entry : Nat × Nat × String)
      (rest : List (Nat × Nat × String)) (i : Nat),
      (∀ k, i ≤ k → k < i + front.length → armResults k = Except.ok ()) →
      armResults (i + front.length) = Except.error e →
      armLoop armResults i (front ++ entry :: rest) =
        (Except.error (GoError.errorf
           ("failed to request data for variable " ++ entry.2.2)),
         (front ++ [entry]).map mkArmCall) := by
  intro front
  induction front with
  | nil =>
      intro entry rest i _ herr
      simp only [List.length_nil, Nat.add_zero] at herr
      simp [armLoop, herr]
  | cons f fr ih =>
      intro entry rest i hok herr
      have h0 : armResults i = Except.ok () :=
        hok i (Nat.le_refl i) (by simp only [List.length_cons]; omega)
      have herr' : armResults ((i + 1) + fr.length) = Except.error e := by
        have harith : (i + 1) + fr.length = i + (f :: fr).length := by
          simp only [List.length_cons]
          omega
        rw [harith]
        exact herr
      have hrest := ih entry rest (i + 1)
        (fun k hk1 hk2 => hok k (by omega) (by simp only [List.length_cons]; omega))
        herr'
      simp [armLoop, h0, hrest]

/-- Every call the arming loop issues carries the fixed parameters
`Start` hard-codes: user aircraft, period once-per-second, changed-only
flag, zero origin/interval/limit. -/
theorem armLoop_call_fields (armResults : Nat → Except GoError Unit) :
    ∀ (entries : List (Nat × Nat × String)) (i : Nat) (call : ArmCall),
      call ∈ (armLoop armResults i entries).2 →
      call.objectID = SIMCONNECT_OBJECT_ID_USER ∧
      call.period = SIMCONNECT_PERIOD_SECOND ∧
      call.flags = SIMCONNECT_DATA_REQUEST_FLAG_CHANGED ∧
      call.origin = 0 ∧ call.interval = 0 ∧ call.limit = 0 := by
  intro entries
  induction entries with
  | nil =>
      intro i call hmem
      simp [armLoop] at hmem
  | cons entry rest ih =>
      intro i call hmem
      rw [armLoop] at hmem
      cases harm : armResults i with
      | error err =>
          rw [harm] at hmem
          simp at hmem
          subst hmem
          exact ⟨rfl, rfl, rfl, rfl, rfl, rfl⟩
      | ok u =>
          rw [harm] at hmem
          simp at hmem
          rcases hmem with hmem | hmem
          · subst hmem
            exact ⟨rfl, rfl, rfl, rfl, rfl, rfl⟩
          · exact ih (i + 1) call hmem

/-- C9: `Start` fails when the manager is already running and when no
variables are registered; otherwise, when every native call succeeds,
it arms every registered variable in order (one call per registry
entry, with its request and definition IDs) and sets `running`; the
first native arming failure aborts `Start` before any further variable
is armed — exactly the successful front plus the failing attempt were
issued — with the wrapped error surfaced and `running` left false; and
every call issued targets the user aircraft with period once-per-second
and the changed-only flag. -/
theorem C9_start_contract (fdm : FlightDataManager)
    (armResults : Nat → Except GoError Unit) :
    (fdm.running = true →
       fdm.Start armResults =
         (Except.error (GoError.errorf "data manager is already running"),
          fdm, [])) ∧
    (fdm.running = false → fdm.«variables».length = 0 →
       fdm.Start armResults =
         (Except.error (GoError.errorf "no variables added"), fdm, [])) ∧
    (fdm.running = false → fdm.«variables».length ≠ 0 →
       ((∀ k, k < fdm.armEntries.length → armResults k = Except.ok ()) →
          fdm.Start armResults =
            (Except.ok (), { fdm with running := true },
             fdm.armEntries.map mkArmCall)) ∧
       (∀ (e : GoError) (front : List (Nat × Nat × String))
          (entry : Nat × Nat × String) (rest : List (Nat × Nat × String)),
          fdm.armEntries = front ++ entry :: rest →
          (∀ k, k < front.length → armResults k = Except.ok ()) →
          armResults front.length = Except.error e →
          fdm.Start armResults =
            (Except.error (GoError.errorf
               ("failed to request data for variable " ++ entry.2.2)),
             fdm, (front ++ [entry]).map mkArmCall))) ∧
    (∀ call ∈ (fdm.Start armResults).2.2,
       call.objectID = SIMCONNECT_OBJECT_ID_USER ∧
       call.period = SIMCONNECT_PERIOD_SECOND ∧
       call.flags = SIMCONNECT_DATA_REQUEST_FLAG_CHANGED) := by
  refine ⟨?_, ?_, ?_, ?_⟩
  · intro h
    simp [FlightDataManager.Start, h]
  · intro h hlen
    simp [FlightDataManager.Start, h, hlen]
  · intro h hlen
    constructor
    · intro hok
      have harm := armLoop_all_ok armResults fdm.armEntries 0
        (fun k _ hk => hok k (by omega))
      simp [FlightDataManager.Start, h, hlen, harm]
    · intro e front entry rest hsplit hok herr
      have harm := armLoop_first_error armResults e front entry rest 0
        (fun k _ hk => hok k (by omega)) (by simpa using herr)
      simp [FlightDataManager.Start, h, hlen, hsplit, harm]
  · intro call hmem
    unfold FlightDataManager.Start at hmem
    by_cases h : fdm.running
    · simp [h] at hmem
    · by_cases hlen : fdm.«variables».length == 0
      · simp [h, hlen] at hmem
      · simp only [h, hlen, if_false, Bool.false_eq_true] at hmem
        rcases hcase : armLoop armResults 0 fdm.armEntries with ⟨res, calls⟩
        rw [hcase] at hmem
        cases res with
        | error err =>
            simp at hmem
            have := armLoop_call_fields armResults fdm.armEntries 0 call
              (by rw [hcase]; exact hmem)
            exact ⟨this.1, this.2.1, this.2.2.1⟩
        | ok u =>
            simp at hmem
            have := armLoop_call_fields armResults fdm.armEntries 0 call
              (by rw [hcase]; exact hmem)
            exact ⟨this.1, this.2.1, this.2.2.1⟩

/-- C9 witness: starting the concrete two-variable manager with every
native call succeeding arms both variables (request IDs 1000 and 2000,
definition IDs 1 and 2, period 4 = once-per-second, flags 1 =
changed-only) and sets `running`; starting it with the first native
call failing returns the wrapped error, leaves the manager unchanged,
and issues only that one attempt. -/
theorem C9_start_contract_witness :
    fdmTwo.Start (fun _ => Except.ok ()) =
      (Except.ok (), { fdmTwo with running := true },
       [{ requestID := 1000, defineID := 1, objectID := 0, period := 4,
          flags := 1, origin := 0, interval := 0, limit := 0 },
        { requestID := 2000, defineID := 2, objectID := 0, period := 4,
          flags := 1, origin := 0, interval := 0, limit := 0 }]) ∧
    fdmTwo.Start (fun _ => Except.error (GoError.errorf "native failure")) =
      (Except.error (GoError.errorf
         "failed to request data for variable Altitude"),
       fdmTwo,
       [{ requestID := 1000, defineID := 1, objectID := 0, period := 4,
          flags := 1, origin := 0, interval := 0, limit := 0 }]) := by
  constructor
  · have h := ((C9_start_contract fdmTwo (fun _ => Except.ok ())).2.2.1
      (by decide) (by decide)).1 (fun k _ => rfl)
    rw [h]
    rfl
  · have h := ((C9_start_contract fdmTwo
      (fun _ => Except.error (GoError.errorf "native failure"))).2.2.1
      (by decide) (by decide)).2 (GoError.errorf "native failure")
      [] (1000, 1, "Altitude")
      [(2000, 2, "Indicated Airspeed")]
      (by decide) (fun k hk => absurd hk (Nat.not_lt_zero k)) rfl
    rw [h]
    rfl

/-- The callback-map entries a run of successful subscriptions appends:
consecutive event IDs from `base` paired with each entry's callback. -/
def assignedCallbacks (base : Nat) : List (String × Nat) → List (Nat × Nat)
  | [] => []
  | (_, cb) :: rest => (base, cb) :: assignedCallbacks (base + 1) rest

/-- The name-map entries a run of successful subscriptions appends:
consecutive event IDs from `base` paired with each entry's name. -/
def assignedNames (base : Nat) : List (String × Nat) → List (Nat × String)
  | [] => []
  | (eventName, _) :: rest => (base, eventName) :: assignedNames (base + 1) rest

/-- C5 counterexample: on a fresh Event Manager, subscribing the
two-entry map where "A" succeeds natively and "B" fails leaves the
manager holding the subscription made for "A" — the state is *not* as
it was before the call (the fresh manager has no subscriptions), so no
rollback happened. -/
theorem C5_counterexample :
    (NewSystemEventManager.SubscribeToCommonEvents true [("A", 1), ("B", 2)]
       (fun n => if n == "A" then Except.ok ()
                 else Except.error (GoError.errorf "native failure"))).1 =
      Except.error (GoError.errorf "failed to subscribe to B") ∧
    (NewSystemEventManager.SubscribeToCommonEvents true [("A", 1), ("B", 2)]
       (fun n => if n == "A" then Except.ok ()
                 else Except.error (GoError.errorf "native failure"))).2.eventNames =
      [(1000, "A")] ∧
    NewSystemEventManager.eventNames = [] ∧
    (NewSystemEventManager.SubscribeToCommonEvents true [("A", 1), ("B", 2)]
       (fun n => if n == "A" then Except.ok ()
                 else Except.error (GoError.errorf "native failure"))).2.eventNames ≠
      NewSystemEventManager.eventNames :=
  ⟨rfl, rfl, rfl, by decide⟩

/-- C5 (amended): `SubscribeToCommonEvents` subscribes the map's entries
in iteration order and stops at the first native subscription failure,
returning that failure wrapped — the subscriptions already made are
left in place (no rollback): after a failure at position `front.length`
the manager holds exactly its previous subscriptions plus one per
successful front entry, with consecutive fresh event IDs, and the ID
counter has advanced past the failed attempt as well. -/
theorem C5_subscribe_many_no_rollback (sem : SystemEventManager)
    (front : List (String × Nat)) (eventName : String) (cb : Nat)
    (rest : List (String × Nat)) (subResults : String → Except GoError Unit)
    (e : GoError)
    (hok : ∀ p ∈ front, subResults p.1 = Except.ok ())
    (herr : subResults eventName = Except.error e) :
    sem.SubscribeToCommonEvents true (front ++ (eventName, cb) :: rest)
        subResults =
      (Except.error (GoError.errorf ("failed to subscribe to " ++ eventName)),
       { callbacks := sem.callbacks ++ assignedCallbacks sem.nextID front
         eventNames := sem.eventNames ++ assignedNames sem.nextID front
         running := sem.running
         errorChan := sem.errorChan
         nextID := sem.nextID + front.length + 1 }) := by
  unfold SystemEventManager.SubscribeToCommonEvents
  induction front generalizing sem with
  | nil =>
      simp [subscribeCommonLoop, SystemEventManager.SubscribeToEvent, herr,
        assignedCallbacks, assignedNames]
  | cons p fr ih =>
      obtain ⟨pname, pcb⟩ := p
      have hp : subResults pname = Except.ok () := hok (pname, pcb) (by simp)
      have hfr : ∀ q ∈ fr, subResults q.1 = Except.ok () :=
        fun q hq => hok q (by simp [hq])
      have hstep := ih
        { sem with nextID := sem.nextID + 1
                   callbacks := sem.callbacks ++ [(sem.nextID, pcb)]
                   eventNames := sem.eventNames ++ [(sem.nextID, pname)] }
        hfr
      simp only [List.cons_append, subscribeCommonLoop,
        SystemEventManager.SubscribeToEvent, Bool.not_true, Bool.false_eq_true,
        if_false, hp, List.append_eq]
      rw [hstep]
      simp only [assignedCallbacks, assignedNames, List.length_cons,
        Prod.mk.injEq, SystemEventManager.mk.injEq, List.cons_append,
        List.append_assoc, List.singleton_append, true_and, and_true]
      refine ⟨by simp, by simp, by omega⟩

/-- C5 witness: the amended theorem at a fresh manager with a
one-entry successful front and a failing second entry. -/
theorem C5_subscribe_many_no_rollback_witness :
    NewSystemEventManager.SubscribeToCommonEvents true [("A", 1), ("B", 2)]
        (fun n => if n == "B" then Except.error (GoError.errorf "native failure")
                  else Except.ok ()) =
      (Except.error (GoError.errorf "failed to subscribe to B"),
       { callbacks := [(1000, 1)], eventNames := [(1000, "A")],
         running := false, errorChan := [], nextID := 1002 }) := by
  have h := C5_subscribe_many_no_rollback NewSystemEventManager [("A", 1)]
    "B" 2 []
    (fun n => if n == "B" then Except.error (GoError.errorf "native failure")
              else Except.ok ())
    (GoError.errorf "native failure")
    (by
      intro p hp
      rw [List.mem_singleton] at hp
      subst hp
      rfl)
    rfl
  have hlist : ([("A", 1)] ++ ("B", 2) :: ([] : List (String × Nat))) =
      [("A", 1), ("B", 2)] := rfl
  rw [hlist] at h
  rw [h]
  rfl

end GoSimconnect

namespace GoSimconnect.SetData

/-- C6: modelled from the spec (the write-path implementation is absent
from src; docs/SetDataImplementation.md and docs/api/client.md are the
authority) — `SetVariable` on a registered variable that is not marked
writable always fails with the "not writable" error and issues no ABI
Bridge call whatever the bridge would answer; `SetVariable` on an
unregistered name fails with "not found" and no bridge call; and
`SetVariableByIndex` on an out-of-range index fails with the index
error and no bridge call. -/
theorem C6_set_variable_write_protection (m : Manager) (name : String)
    (value : Nat) (r : Except GoError Unit) :
    (∀ i (h : i < m.«variables».length),
       m.«variables».findIdx? (fun v => v.Name == name) = some i →
       (m.«variables»[i]).Writable = false →
       m.SetVariable name value r =
         (Except.error (GoError.errorf
            ("variable " ++ (m.«variables»[i]).Name ++
              " is not writable")), [])) ∧
    (m.«variables».findIdx? (fun v => v.Name == name) = none →
       m.SetVariable name value r =
         (Except.error (GoError.errorf ("variable " ++ name ++ " not found")),
          [])) ∧
    (∀ j, m.«variables».length ≤ j →
       m.SetVariableByIndex j value r =
         (Except.error (GoError.errorf "variable index out of range"), [])) := by
  refine ⟨?_, ?_, ?_⟩
  · intro i h hfind hro
    simp [Manager.SetVariable, Manager.SetVariableByIndex, hfind, h, hro]
  · intro hfind
    simp [Manager.SetVariable, hfind]
  · intro j hj
    simp [Manager.SetVariableByIndex, Nat.not_lt.mpr hj]

/-- C6 witness: on a concrete manager holding a read-only "Altitude"
and a writable "Throttle", writing "Altitude" fails with the "not
writable" error and no bridge call, writing an unknown name fails with
"not found", and index 5 is out of range. -/
theorem C6_set_variable_write_protection_witness :
    Manager.SetVariable
      { «variables» :=
          [{ Name := "Altitude", SimVar := "Plane Altitude", Units := "feet",
             Value := 0, Updated := 0, Writable := false },
           { Name := "Throttle",
             SimVar := "General Eng Throttle Lever Position:1",
             Units := "percent", Value := 0, Updated := 0, Writable := true }],
        definitions := [1, 2] } "Altitude" 4652218415073722368 (Except.ok ()) =
      (Except.error (GoError.errorf "variable Altitude is not writable"), []) ∧
    Manager.SetVariable
      { «variables» :=
          [{ Name := "Altitude", SimVar := "Plane Altitude", Units := "feet",
             Value := 0, Updated := 0, Writable := false }],
        definitions := [1] } "Missing" 0 (Except.ok ()) =
      (Except.error (GoError.errorf "variable Missing not found"), []) ∧
    Manager.SetVariableByIndex
      { «variables» :=
          [{ Name := "Altitude", SimVar := "Plane Altitude", Units := "feet",
             Value := 0, Updated := 0, Writable := false }],
        definitions := [1] } 5 0 (Except.ok ()) =
      (Except.error (GoError.errorf "variable index out of range"), []) := by
  refine ⟨?_, ?_, ?_⟩
  · exact (C6_set_variable_write_protection _ "Altitude" 4652218415073722368
      (Except.ok ())).1 0 (by decide) (by decide) (by decide)
  · exact (C6_set_variable_write_protection _ "Missing" 0
      (Except.ok ())).2.1 (by decide)
  · exact (C6_set_variable_write_protection _ "x" 0
      (Except.ok ())).2.2 5 (by decide)

end GoSimconnect.SetData
